import Mathlib

/-!
Verification of the multi-backend orchestration engine of the Unified AI CLI
(src/brain.py) against its specification.

The embedding translates the Python source shallowly:

* Python dicts that flow through the program become Lean structures whose
  fields mirror the dict keys; a key that a given dict literal omits is
  modelled by the field's default value (Python reads such keys with
  `.get`, so an absent key and a falsy value are indistinguishable to the
  program).
* The outcome of each external network call (`requests.post`,
  `model.generate_content_async`, `anthropic ... messages.create`) is an
  explicit input of the adapter function: the adapter either receives a
  response value or an exception message, exactly the two ways the awaited
  call can resolve inside the adapter's `try` block.
* `async def` methods are pure functions of their inputs plus those call
  outcomes; scheduling order, which matters only for the fan-out latency
  property, is modelled separately by an explicit event trace.
-/

namespace Brain

/-- A conversation message as stored by HistoryManager.add_message
(brain.py 119-129): a dict with keys role, content, provider
(None for user messages) and an ISO timestamp string. -/
structure Message where
  role : String
  content : String
  provider : Option String := none
  timestamp : String := ""
deriving Repr, DecidableEq

/-- The dict returned by each provider's generate_response
(brain.py 149-296): keys content and provider always present; model
present on success paths; error present (True) exactly on failure paths —
absence of the error key is modelled as `error := false`, matching every
read through response.get. The usage key is presentation-only metadata
(displayed, never branched on) and is not modelled. -/
structure BackendResult where
  content : String
  provider : String
  model : Option String := none
  error : Bool := false
deriving Repr, DecidableEq

/-- The dict returned by DeepThinkingBrain.generate_response: either an
adapter dict passed through unchanged, or the deep-thinking dict of
brain.py 375-380, which carries the extra key individual_responses and
omits the error key. -/
structure Response where
  content : String
  provider : String
  model : Option String := none
  error : Bool := false
  individual_responses : Option (List (String × BackendResult)) := none
deriving Repr, DecidableEq

/-- The adapter dict is returned to the brain's caller unchanged
(brain.py 317-326); this re-packages it in the wider Response type with
the individual_responses key absent. -/
def BackendResult.toResponse (b : BackendResult) : Response :=
  { content := b.content, provider := b.provider, model := b.model,
    error := b.error, individual_responses := none }

/-- The configuration values the orchestration core reads
(brain.py 61-92): the config.yaml entries it branches on, plus the two
credential-derived attributes set by Config.setup_providers
(`mistral_api_key`, and whether `anthropic_client` is non-None). -/
structure Config where
  default_provider : String := "mistral"
  default_model : String := "mistral-large-latest"
  mistral_api_key : Option String := none
  anthropic_client_present : Bool := false
deriving Repr, DecidableEq

/-! ## Context Store (HistoryManager) -/

/-- HistoryManager.add_message (brain.py 119-129): load the thread,
append one message dict, save. The durable record is modelled as the
message list; the wall-clock timestamp is an explicit argument. -/
def add_message (history : List Message) (role content : String)
    (provider : Option String) (ts : String) : List Message :=
  history ++ [{ role := role, content := content, provider := provider, timestamp := ts }]

/-- HistoryManager.get_context_messages (brain.py 131-134):
`history[-max_messages:] if history else []`. For max_messages ≥ 1 the
Python slice takes the last max_messages elements (the whole list when it
is shorter); for max_messages = 0 the slice `[-0:]` is `[0:]`, i.e. the
whole list. -/
def get_context_messages (history : List Message) (max_messages : Nat) : List Message :=
  if history.isEmpty then []
  else if max_messages = 0 then history
  else history.drop (history.length - max_messages)

/-! ## Backend Adapters -/

/-- How the Mistral HTTP call of brain.py 189-194 resolves inside the
adapter's try block: either `requests.post` raises (exception message), or
an HTTP response arrives with a status code and body text. For a 200
response, `extracted` is the result of evaluating
`response.json()` followed by `data['choices'][0]['message']['content']`
(brain.py 197-199): the content string, or the message of the exception
raised when the body is not JSON or lacks that shape. -/
inductive MistralOutcome where
  | exc (msg : String)
  | resp (status : Nat) (text : String) (extracted : Except String String)
deriving Repr

/-- The messages list built by MistralProvider.generate_response
(brain.py 159-171): context messages whose role is user or assistant,
each reduced to its role/content pair, followed by the current prompt as
a user message. -/
def mistralMessages (prompt : String) (context : List Message) : List (String × String) :=
  (context.filter (fun m => m.role == "user" || m.role == "assistant")).map
      (fun m => (m.role, m.content))
    ++ [("user", prompt)]

/-- MistralProvider.generate_response (brain.py 149-216). The whole body
runs inside try/except Exception; every failure path returns an error
dict instead of raising. The request payload's messages field is
`mistralMessages prompt context`. -/
def mistralGenerate (cfg : Config) (outcome : MistralOutcome)
    (_prompt : String) (_context : List Message) : BackendResult :=
  match cfg.mistral_api_key with
  | none =>
      { content := "Mistral API key not configured", provider := "mistral", error := true }
  | some _ =>
      match outcome with
      | .exc e =>
          { content := "Error with Mistral: " ++ e, provider := "mistral", error := true }
      | .resp status text extracted =>
          if status = 200 then
            match extracted with
            | .ok c =>
                { content := c, provider := "mistral",
                  model := some cfg.default_model, error := false }
            | .error e =>
                { content := "Error with Mistral: " ++ e, provider := "mistral", error := true }
          else
            { content := "Mistral API error: " ++ toString status ++ " - " ++ text,
              provider := "mistral", error := true }

/-- The list comprehension of brain.py 228-231: one "role: content" line
per message of `context[-5:]`, with no filtering on the role. -/
def geminiContextLines (context : List Message) : List String :=
  (context.drop (context.length - 5)).map (fun m => m.role ++ ": " ++ m.content)

/-- The full_prompt built by GeminiProvider.generate_response
(brain.py 226-232): the bare prompt when the context is empty (or None),
otherwise the joined last-five context lines followed by the prompt. -/
def geminiFullPrompt (prompt : String) (context : List Message) : String :=
  if context.isEmpty then prompt
  else "Context:\n" ++ String.intercalate "\n" (geminiContextLines context)
    ++ "\n\nCurrent question: " ++ prompt

/-- GeminiProvider.generate_response (brain.py 221-247): the awaited
generate_content_async call (on `geminiFullPrompt prompt context`) either
yields a response text or raises — including when GEMINI_API_KEY was
never configured, since the adapter itself performs no credential check;
every exception is caught and reified. -/
def geminiGenerate (outcome : Except String String)
    (_prompt : String) (_context : List Message) : BackendResult :=
  match outcome with
  | .ok text =>
      { content := text, provider := "gemini", model := some "gemini-pro", error := false }
  | .error e =>
      { content := "Error with Gemini: " ++ e, provider := "gemini", error := true }

/-- The messages list built by ClaudeProvider.generate_response
(brain.py 261-273): identical shape to the Mistral translation. -/
def claudeMessages (prompt : String) (context : List Message) : List (String × String) :=
  (context.filter (fun m => m.role == "user" || m.role == "assistant")).map
      (fun m => (m.role, m.content))
    ++ [("user", prompt)]

/-- ClaudeProvider.generate_response (brain.py 252-296): missing client
(no ANTHROPIC_API_KEY) returns an error dict; otherwise the awaited
messages.create call either yields a response text or raises, and every
exception is caught and reified. -/
def claudeGenerate (cfg : Config) (outcome : Except String String)
    (_prompt : String) (_context : List Message) : BackendResult :=
  if cfg.anthropic_client_present then
    match outcome with
    | .ok text =>
        { content := text, provider := "claude",
          model := some "claude-3-sonnet-20240229", error := false }
    | .error e =>
        { content := "Error with Claude: " ++ e, provider := "claude", error := true }
  else
    { content := "Anthropic API key not configured", provider := "claude", error := true }

/-- The failure cases of the Mistral adapter body (brain.py 149-216):
missing credential, a raised network call, a non-success HTTP status, or
a 200 response whose body cannot be reduced to a content string. -/
def mistralFailure (cfg : Config) (o : MistralOutcome) : Prop :=
  cfg.mistral_api_key = none
  ∨ (∃ e, o = .exc e)
  ∨ (∃ s t ex, o = .resp s t ex ∧ s ≠ 200)
  ∨ (∃ t e, o = .resp 200 t (.error e))

/-- The failure cases of the Claude adapter body (brain.py 252-296):
missing client, or a raised call. -/
def claudeFailure (cfg : Config) (o : Except String String) : Prop :=
  cfg.anthropic_client_present = false ∨ ∃ e, o = .error e

/-! ## Orchestrator (DeepThinkingBrain)

The brain-level functions abstract the three adapters behind one
behaviour function `gen : String → String → List Message → BackendResult`
(`gen p prompt ctx` is the BackendResult that provider p's
generate_response call yields for that prompt and context, with that
call's network outcome folded in). The adapter functions above show every
such call is total — adapters never raise — so a single behaviour
function loses no case. -/

/-- The keys of the adapter registry `self.providers` built by
DeepThinkingBrain.__init__ (brain.py 304-308), in insertion order. -/
def registeredProviders : List String := ["mistral", "gemini", "claude"]

/-- The hard-coded iteration list of the fan-out loop (brain.py 335). -/
def fanoutOrder : List String := ["mistral", "gemini", "claude"]

/-- The tasks list built by the first loop of deep_thinking_mode
(brain.py 334-340): the providers of fanoutOrder that pass the
`provider_name in self.providers` membership check, in loop order. -/
def deepThinkingTaskNames : List String :=
  fanoutOrder.filter (fun p => p ∈ registeredProviders)

/-- The second loop of deep_thinking_mode (brain.py 343-353): await each
task in turn and store its result in the responses dict under the
provider's name (insertion-ordered, keys distinct, so an association
list models the dict exactly). -/
def awaitResponses (gen : String → String → List Message → BackendResult)
    (prompt : String) (ctx : List Message) :
    List String → List (String × BackendResult)
  | [] => []
  | p :: rest => (p, gen p prompt ctx) :: awaitResponses gen prompt ctx rest

/-- The full responses dict a deep-thinking fan-out produces for a given
prompt and context window. -/
def fanoutResponses (gen : String → String → List Message → BackendResult)
    (prompt : String) (ctx : List Message) : List (String × BackendResult) :=
  awaitResponses gen prompt ctx deepThinkingTaskNames

/-- Model of the library call `json.dumps(responses, indent=2)`
(brain.py 368): serializes every entry of the fan-out map with all of its
fields, so each per-backend result — failed or not — is embedded verbatim
in the synthesis meta-prompt. The Python library's exact whitespace and
field order are not reproduced; no theorem depends on them. -/
def dumpBackendResult (r : BackendResult) : String :=
  "\x7b\"content\": \"" ++ r.content ++ "\", \"provider\": \"" ++ r.provider ++ "\""
    ++ (match r.model with
        | some m => ", \"model\": \"" ++ m ++ "\""
        | none => "")
    ++ (if r.error then ", \"error\": true" else "")
    ++ "\x7d"

/-- json.dumps of the whole responses dict. -/
def jsonDumps (responses : List (String × BackendResult)) : String :=
  "\x7b" ++ String.intercalate ", "
      (responses.map (fun pr => "\"" ++ pr.1 ++ "\": " ++ dumpBackendResult pr.2))
    ++ "\x7d"

/-- The synthesis meta-prompt f-string of brain.py 362-371: the original
question plus the serialized responses dict, with the triple-quoted
string's indentation. -/
def synthesisPrompt (prompt : String) (responses : List (String × BackendResult)) : String :=
  "\n        Analyze the following responses from different AI models and provide a comprehensive synthesis:\n\n        Question: "
    ++ prompt
    ++ "\n\n        Responses:\n        "
    ++ jsonDumps responses
    ++ "\n\n        Please provide a well-reasoned synthesis that combines the best insights from each perspective.\n        "

/-- DeepThinkingBrain.deep_thinking_mode (brain.py 328-380): fan out to
every registered provider, then delegate the meta-prompt to the mistral
adapter with the context argument omitted (None, i.e. no context
messages — modelled as []), and return the synthesis dict of lines
375-380. That dict copies only the content of the synthesis result: it
sets no error key (modelled `error := false`) whatever the synthesis
call returned, and stores the full fan-out map under
individual_responses. -/
def deep_thinking_mode (gen : String → String → List Message → BackendResult)
    (prompt : String) (ctx : List Message) : Response :=
  let responses := fanoutResponses gen prompt ctx
  let synthesis := gen "mistral" (synthesisPrompt prompt responses) []
  { content := synthesis.content
    provider := "deep_thinking"
    model := some "multi-provider-synthesis"
    error := false
    individual_responses := some responses }

/-- DeepThinkingBrain.generate_response (brain.py 310-326). The Python
guard `if provider and provider in self.providers` is true exactly when
the argument is a non-empty string registered in the adapter map; every
other call — including one naming an unknown provider — falls through to
the configured default provider. -/
def DeepThinkingBrain.generate_response
    (gen : String → String → List Message → BackendResult) (cfg : Config)
    (ctx : List Message) (prompt : String) (provider : Option String)
    (use_deep_thinking : Bool) : Response :=
  if use_deep_thinking then deep_thinking_mode gen prompt ctx
  else
    match provider with
    | some p =>
        if p ≠ "" ∧ p ∈ registeredProviders then (gen p prompt ctx).toResponse
        else (gen cfg.default_provider prompt ctx).toResponse
    | none => (gen cfg.default_provider prompt ctx).toResponse

/-! ## Session Controller -/

/-- The persistence step both session entry points perform after a turn:
brain.py 538-539 (single-shot main) and 432-433 (interactive loop) append
the user message and then the assistant message — built from the result
dict's content and provider keys — with no condition on the result's
error key. -/
def sessionStep (thread : List Message) (prompt : String) (response : Response)
    (ts1 ts2 : String) : List Message :=
  add_message (add_message thread "user" prompt none ts1)
    "assistant" response.content (some response.provider) ts2

/-! ## Fan-out scheduling trace -/

/-- One scheduling event of a fan-out: an adapter call starting to
execute, or resolving. -/
inductive FanoutEvent where
  | start (p : String)
  | finish (p : String)
deriving Repr, DecidableEq

/-- Whether an event is a start event. -/
def FanoutEvent.isStart : FanoutEvent → Bool
  | .start _ => true
  | .finish _ => false

/-- Event trace of the fan-out (brain.py 333-353) under Python coroutine
semantics. Line 337 calls the async method, which only creates a
coroutine object — nothing is scheduled (the code uses no
asyncio.create_task, ensure_future or gather). Each coroutine therefore
begins executing at the `await task` of line 351 and runs to completion
(its network call included) before the loop's next iteration, so each
adapter call contributes its start and finish events consecutively, in
task-list order. -/
def fanoutTrace : List String → List FanoutEvent
  | [] => []
  | p :: rest => FanoutEvent.start p :: FanoutEvent.finish p :: fanoutTrace rest

/-- A trace issues all calls before any resolves exactly when no start
event occurs after a finish event: after dropping the leading block of
start events, no start event remains. -/
def concurrentStart (t : List FanoutEvent) : Bool :=
  ((t.dropWhile FanoutEvent.isStart).filter FanoutEvent.isStart).isEmpty

/-! ## Concrete fixtures

Sample behaviours, configurations and threads used to instantiate the
universally quantified theorems at concrete inputs. -/

/-- A behaviour function where every adapter call succeeds. -/
def okGen : String → String → List Message → BackendResult :=
  fun p _ _ => { content := "answer from " ++ p, provider := p, error := false }

/-- A behaviour function where every adapter call fails; each call is
already reified as an error dict, as the adapter functions guarantee. -/
def failGen : String → String → List Message → BackendResult :=
  fun p _ _ => { content := "Error with " ++ p ++ ": boom", provider := p, error := true }

/-- A configuration with both credentials present. -/
def sampleCfg : Config :=
  { default_provider := "mistral", default_model := "mistral-large-latest",
    mistral_api_key := some "k", anthropic_client_present := true }

/-- A context message whose role is neither user nor assistant. -/
def sysMsg : Message := { role := "system", content := "SECRET-NOTE" }

/-- A fifteen-message thread. -/
def thread15 : List Message :=
  (List.range 15).map (fun i => { role := "user", content := toString i })

/-- A failed dispatch result. -/
def errResp : Response :=
  { content := "Error with Mistral: boom", provider := "mistral", error := true }

/-! ## Helper lemmas -/

/-- A string with a fixed non-empty left part is non-empty. -/
theorem append_left_ne_empty (a b : String) (h : a ≠ "") : a ++ b ≠ "" := by
  intro hab
  apply h
  have hd := congrArg String.data hab
  simp [String.data_append] at hd
  cases a
  simp_all

/-- The fan-out task list evaluates to the full provider registry. -/
theorem taskNames_eq : deepThinkingTaskNames = ["mistral", "gemini", "claude"] := by
  decide

/-- A message just appended to a thread belongs to every windowed context
of positive bound taken from the new thread. -/
theorem mem_windowed_of_append (l : List Message) (m : Message) (K : Nat) (h : 1 ≤ K) :
    m ∈ get_context_messages (l ++ [m]) K := by
  unfold get_context_messages
  have hne : (l ++ [m]).isEmpty = false := by simp
  have hK : ¬ K = 0 := by omega
  simp only [hne, Bool.false_eq_true, if_false, hK]
  rw [List.drop_append_of_le_length (by simp; omega)]
  simp

/-! ## Claim theorems -/

/-- C1: for every success/failure mix of the registered adapters and
every prompt and context, the result map of the deep-thinking fan-out
contains exactly one entry per registered backend id — in registry
order, none omitted — and the entry for each id is precisely that
adapter's BackendResult, failed entries included rather than absent. -/
theorem deep_thinking_fanout_complete
    (gen : String → String → List Message → BackendResult)
    (prompt : String) (ctx : List Message) :
    ∃ rs, (deep_thinking_mode gen prompt ctx).individual_responses = some rs ∧
      rs.map Prod.fst = registeredProviders ∧
      ∀ p ∈ registeredProviders, rs.lookup p = some (gen p prompt ctx) := by
  refine ⟨fanoutResponses gen prompt ctx, rfl, ?_, ?_⟩
  · unfold fanoutResponses
    rw [taskNames_eq]
    rfl
  · unfold fanoutResponses
    rw [taskNames_eq]
    intro p hp
    fin_cases hp <;> rfl

/-- Witness for C1: the theorem at an all-failing behaviour, with the
membership hypothesis discharged at the backend id "gemini". -/
theorem deep_thinking_fanout_complete_witness :
    ∃ rs, (deep_thinking_mode failGen "q" []).individual_responses = some rs ∧
      rs.map Prod.fst = registeredProviders ∧
      rs.lookup "gemini" = some (failGen "gemini" "q" []) := by
  obtain ⟨rs, h1, h2, h3⟩ := deep_thinking_fanout_complete failGen "q" []
  exact ⟨rs, h1, h2, h3 "gemini" (by decide)⟩

/-- C3 counterexample: requesting the unregistered backend id "foo" is
not signaled as a configuration error — the dispatch silently returns
the default (mistral) adapter's result, with no error flag set. -/
theorem unknown_backend_silently_redirected :
    "foo" ∉ registeredProviders ∧
    DeepThinkingBrain.generate_response okGen sampleCfg [] "hi" (some "foo") false =
      (okGen "mistral" "hi" []).toResponse ∧
    (DeepThinkingBrain.generate_response okGen sampleCfg [] "hi" (some "foo") false).error
      = false := by
  refine ⟨by decide, by rfl, by rfl⟩

/-- C3 amended: for every backend id not in the registered adapter set,
single-backend dispatch silently falls back to the configured default
provider — the caller receives the default adapter's result, not a
configuration error. -/
theorem unknown_backend_falls_back_to_default
    (gen : String → String → List Message → BackendResult) (cfg : Config)
    (ctx : List Message) (prompt : String) (p : String)
    (h : p ∉ registeredProviders) :
    DeepThinkingBrain.generate_response gen cfg ctx prompt (some p) false =
      (gen cfg.default_provider prompt ctx).toResponse := by
  unfold DeepThinkingBrain.generate_response
  simp [h]

/-- Witness for C3's amended theorem at the concrete unknown id "bar". -/
theorem unknown_backend_falls_back_to_default_witness :
    DeepThinkingBrain.generate_response okGen sampleCfg [] "hi" (some "bar") false =
      (okGen sampleCfg.default_provider "hi" []).toResponse :=
  unknown_backend_falls_back_to_default okGen sampleCfg [] "hi" "bar" (by decide)

/-- C6 counterexample: the backend identifier of a synthesized turn is
the literal "deep_thinking", not the literal "synthesis". -/
theorem synthesized_turn_marker_not_synthesis :
    (deep_thinking_mode okGen "q" []).provider = "deep_thinking" ∧
    (deep_thinking_mode okGen "q" []).provider ≠ "synthesis" := by
  exact ⟨rfl, by decide⟩

/-- C6 amended: for every synthesized turn, the result's backend
identifier — and hence the producedBy field of the assistant message the
session controller persists for that turn — is the literal marker
"deep_thinking". -/
theorem synthesized_turn_marker_deep_thinking
    (gen : String → String → List Message → BackendResult)
    (prompt : String) (ctx thread : List Message) (ts1 ts2 : String) :
    (deep_thinking_mode gen prompt ctx).provider = "deep_thinking" ∧
    (sessionStep thread prompt (deep_thinking_mode gen prompt ctx) ts1 ts2).getLast? =
      some { role := "assistant",
             content := (deep_thinking_mode gen prompt ctx).content,
             provider := some "deep_thinking", timestamp := ts2 } := by
  constructor
  · rfl
  · unfold sessionStep add_message
    rw [List.getLast?_concat]
    rfl

/-- C9: the scheduling trace of the fan-out is strictly sequential —
each adapter call starts and resolves before the next one starts — so
the fan-out does not issue all calls before any resolves, and its
latency is the sum over backends rather than the slowest one. -/
theorem fanout_dispatch_is_sequential :
    fanoutTrace deepThinkingTaskNames =
      [.start "mistral", .finish "mistral", .start "gemini", .finish "gemini",
       .start "claude", .finish "claude"] ∧
    concurrentStart (fanoutTrace deepThinkingTaskNames) = false := by
  decide

/-- C2: no adapter raises — each is a total function of its inputs and
its network call's outcome — and on every failure case (transport error,
missing credential, malformed backend response) the adapter returns a
BackendResult whose error flag is set and whose content is a non-empty,
human-readable error text. -/
theorem adapter_failures_reified :
    (∀ cfg o prompt ctx, mistralFailure cfg o →
        (mistralGenerate cfg o prompt ctx).error = true ∧
        (mistralGenerate cfg o prompt ctx).content ≠ "")
  ∧ (∀ e prompt ctx,
        (geminiGenerate (.error e) prompt ctx).error = true ∧
        (geminiGenerate (.error e) prompt ctx).content ≠ "")
  ∧ (∀ cfg o prompt ctx, claudeFailure cfg o →
        (claudeGenerate cfg o prompt ctx).error = true ∧
        (claudeGenerate cfg o prompt ctx).content ≠ "") := by
  refine ⟨?_, ?_, ?_⟩
  · intro cfg o prompt ctx hf
    rcases hkey : cfg.mistral_api_key with _ | k
    · have hr : mistralGenerate cfg o prompt ctx =
          { content := "Mistral API key not configured", provider := "mistral",
            error := true } := by
        unfold mistralGenerate
        rw [hkey]
      rw [hr]
      exact ⟨rfl, by decide⟩
    · rcases hf with hk | ⟨e, rfl⟩ | ⟨s, t, ex, rfl, hs⟩ | ⟨t, e, rfl⟩
      · rw [hkey] at hk
        exact absurd hk (by simp)
      · have hr : mistralGenerate cfg (.exc e) prompt ctx =
            { content := "Error with Mistral: " ++ e, provider := "mistral",
              error := true } := by
          unfold mistralGenerate
          rw [hkey]
        rw [hr]
        exact ⟨rfl, append_left_ne_empty _ _ (by decide)⟩
      · have hr : mistralGenerate cfg (.resp s t ex) prompt ctx =
            { content := "Mistral API error: " ++ toString s ++ " - " ++ t,
              provider := "mistral", error := true } := by
          simp [mistralGenerate, hkey, hs]
        rw [hr]
        exact ⟨rfl, append_left_ne_empty _ _
          (append_left_ne_empty _ _ (append_left_ne_empty _ _ (by decide)))⟩
      · have hr : mistralGenerate cfg (.resp 200 t (.error e)) prompt ctx =
            { content := "Error with Mistral: " ++ e, provider := "mistral",
              error := true } := by
          simp [mistralGenerate, hkey]
        rw [hr]
        exact ⟨rfl, append_left_ne_empty _ _ (by decide)⟩
  · intro e prompt ctx
    exact ⟨rfl, append_left_ne_empty _ _ (by decide)⟩
  · intro cfg o prompt ctx hf
    rcases hcl : cfg.anthropic_client_present
    · have hr : claudeGenerate cfg o prompt ctx =
          { content := "Anthropic API key not configured", provider := "claude",
            error := true } := by
        simp [claudeGenerate, hcl]
      rw [hr]
      exact ⟨rfl, by decide⟩
    · rcases hf with hcl2 | ⟨e, rfl⟩
      · rw [hcl] at hcl2
        exact absurd hcl2 (by simp)
      · have hr : claudeGenerate cfg (.error e) prompt ctx =
            { content := "Error with Claude: " ++ e, provider := "claude",
              error := true } := by
          simp [claudeGenerate, hcl]
        rw [hr]
        exact ⟨rfl, append_left_ne_empty _ _ (by decide)⟩

/-- Witness for C2: each adapter's clause instantiated at a concrete
failure — Mistral with a missing credential, Gemini with a raised call,
Claude with a missing client. -/
theorem adapter_failures_reified_witness :
    ((mistralGenerate { mistral_api_key := none } (.exc "timeout") "q" []).error = true ∧
      (mistralGenerate { mistral_api_key := none } (.exc "timeout") "q" []).content ≠ "") ∧
    ((geminiGenerate (.error "ConnectionError") "q" []).error = true ∧
      (geminiGenerate (.error "ConnectionError") "q" []).content ≠ "") ∧
    ((claudeGenerate { anthropic_client_present := false } (.error "x") "q" []).error = true ∧
      (claudeGenerate { anthropic_client_present := false } (.error "x") "q" []).content ≠ "") := by
  obtain ⟨hm, hg, hc⟩ := adapter_failures_reified
  exact ⟨hm _ _ "q" [] (Or.inl rfl), hg "ConnectionError" "q" [], hc _ _ "q" [] (Or.inl rfl)⟩

/-- C4: for every fan-out result set — in particular one in which every
adapter failed — the synthesis step is still performed: the result's
content is the synthesis backend's answer to the meta-prompt built from
the full fan-out map, the synthesis call receives the empty additional
context, and the full map is returned alongside; no backend failure
short-circuits the synthesis. -/
theorem synthesis_never_short_circuited
    (gen : String → String → List Message → BackendResult)
    (prompt : String) (ctx : List Message)
    (_hall : ∀ pr ∈ fanoutResponses gen prompt ctx, pr.2.error = true) :
    (deep_thinking_mode gen prompt ctx).content =
      (gen "mistral" (synthesisPrompt prompt (fanoutResponses gen prompt ctx)) []).content ∧
    (deep_thinking_mode gen prompt ctx).individual_responses =
      some (fanoutResponses gen prompt ctx) :=
  ⟨rfl, rfl⟩

/-- Witness for C4: all three adapter calls fail, and the synthesis call
still runs on the meta-prompt with the empty context. -/
theorem synthesis_never_short_circuited_witness :
    (deep_thinking_mode failGen "q" []).content =
      (failGen "mistral" (synthesisPrompt "q" (fanoutResponses failGen "q" [])) []).content ∧
    (deep_thinking_mode failGen "q" []).individual_responses =
      some (fanoutResponses failGen "q" []) :=
  synthesis_never_short_circuited failGen "q" [] (by decide)

/-- C5 counterexample: a fan-out in which the synthesis backend's own
call fails, yet the returned result's error flag is false — the failure
of the synthesis call is not carried as failed=true. -/
theorem failed_synthesis_error_flag_dropped :
    (failGen "mistral" (synthesisPrompt "q" (fanoutResponses failGen "q" [])) []).error
      = true ∧
    (deep_thinking_mode failGen "q" []).error = false :=
  ⟨rfl, rfl⟩

/-- C5 amended: when the synthesis backend's own call fails, the result
still carries that call's error text as its content and the original,
unmodified fan-out map in individual_responses, but its error flag is
false — the synthesis failure is not marked failed=true on the result. -/
theorem failed_synthesis_content_and_map_preserved
    (gen : String → String → List Message → BackendResult)
    (prompt : String) (ctx : List Message)
    (_h : (gen "mistral" (synthesisPrompt prompt (fanoutResponses gen prompt ctx)) []).error
        = true) :
    (deep_thinking_mode gen prompt ctx).content =
      (gen "mistral" (synthesisPrompt prompt (fanoutResponses gen prompt ctx)) []).content ∧
    (deep_thinking_mode gen prompt ctx).individual_responses =
      some (fanoutResponses gen prompt ctx) ∧
    (deep_thinking_mode gen prompt ctx).error = false :=
  ⟨rfl, rfl, rfl⟩

/-- Witness for C5's amended theorem at a concrete failing synthesis
behaviour. -/
theorem failed_synthesis_content_and_map_preserved_witness :
    (deep_thinking_mode failGen "p2" []).content =
      (failGen "mistral" (synthesisPrompt "p2" (fanoutResponses failGen "p2" [])) []).content ∧
    (deep_thinking_mode failGen "p2" []).individual_responses =
      some (fanoutResponses failGen "p2" []) ∧
    (deep_thinking_mode failGen "p2" []).error = false :=
  failed_synthesis_content_and_map_preserved failGen "p2" [] rfl

/-- C7 counterexample: the Gemini adapter forwards a context message
whose role is neither user nor assistant — the full prompt sent to that
backend embeds the system-role message verbatim, so such messages are
not excluded from the translated context of every adapter. -/
theorem gemini_context_includes_system_role :
    sysMsg.role ≠ "user" ∧ sysMsg.role ≠ "assistant" ∧
    geminiFullPrompt "q" [sysMsg] =
      "Context:\nsystem: SECRET-NOTE\n\nCurrent question: q" ∧
    geminiFullPrompt "q" [sysMsg] ≠ geminiFullPrompt "q" [] := by
  refine ⟨by decide, by decide, by decide, by decide⟩

/-- C7 amended: the Mistral and Claude adapters forward only context
messages whose role is user or assistant, while the Gemini adapter
forwards each of the last five context messages regardless of its
role. -/
theorem context_role_forwarding (prompt : String) (ctx : List Message) :
    (∀ pr ∈ mistralMessages prompt ctx, pr.1 = "user" ∨ pr.1 = "assistant") ∧
    (∀ pr ∈ claudeMessages prompt ctx, pr.1 = "user" ∨ pr.1 = "assistant") ∧
    (∀ m ∈ ctx.drop (ctx.length - 5),
        (m.role ++ ": " ++ m.content) ∈ geminiContextLines ctx) := by
  refine ⟨?_, ?_, ?_⟩
  · intro pr hpr
    unfold mistralMessages at hpr
    rcases List.mem_append.1 hpr with hl | hr
    · rcases List.mem_map.1 hl with ⟨m, hm, rfl⟩
      have hrole := (List.mem_filter.1 hm).2
      simp only [Bool.or_eq_true, beq_iff_eq] at hrole
      exact hrole
    · simp only [List.mem_singleton] at hr
      subst hr
      exact Or.inl rfl
  · intro pr hpr
    unfold claudeMessages at hpr
    rcases List.mem_append.1 hpr with hl | hr
    · rcases List.mem_map.1 hl with ⟨m, hm, rfl⟩
      have hrole := (List.mem_filter.1 hm).2
      simp only [Bool.or_eq_true, beq_iff_eq] at hrole
      exact hrole
    · simp only [List.mem_singleton] at hr
      subst hr
      exact Or.inl rfl
  · intro m hm
    exact List.mem_map_of_mem _ hm

/-- Witness for C7's amended theorem: applied at a concrete context, a
concrete forwarded Mistral pair, and the system-role message forwarded
by Gemini. -/
theorem context_role_forwarding_witness :
    (("user", "hello") ∈
        mistralMessages "next" [sysMsg, { role := "user", content := "hello" }]) ∧
    (("user", "hello").1 = "user" ∨ ("user", "hello").1 = "assistant") ∧
    ((sysMsg.role ++ ": " ++ sysMsg.content) ∈ geminiContextLines [sysMsg]) := by
  refine ⟨by decide, ?_, ?_⟩
  · exact (context_role_forwarding "next"
      [sysMsg, { role := "user", content := "hello" }]).1 _ (by decide)
  · exact (context_role_forwarding "next" [sysMsg]).2.2 sysMsg (by decide)

/-- C8 counterexample: with bound K = 0 and a one-message thread, the
windowed context is the whole thread (Python's slice [-0:] is [0:]),
not the last min(0, 1) = 0 messages. -/
theorem windowed_context_zero_bound_returns_all :
    get_context_messages [sysMsg] 0 = [sysMsg] ∧
    min 0 ([sysMsg] : List Message).length = 0 := by
  decide

/-- C8 amended: for every thread and every bound K ≥ 1, the windowed
context is exactly the last min(K, length of thread) messages of the
stored thread in their original stored order — a suffix of the thread of
that length; for K = 0 the whole thread is returned instead. -/
theorem windowed_context_last_min_suffix (history : List Message) (K : Nat)
    (h : 1 ≤ K) :
    get_context_messages history K <:+ history ∧
    (get_context_messages history K).length = min K history.length := by
  unfold get_context_messages
  have hK : ¬ K = 0 := by omega
  by_cases he : history.isEmpty = true
  · rw [List.isEmpty_iff] at he
    subst he
    simp
  · rw [if_neg he, if_neg hK]
    refine ⟨List.drop_suffix _ _, ?_⟩
    rw [List.length_drop, Nat.min_def]
    split <;> omega

/-- Witness for C8's amended theorem: the spec's own example — a
15-message thread with bound 10 yields a suffix of length 10. -/
theorem windowed_context_last_min_suffix_witness :
    get_context_messages thread15 10 <:+ thread15 ∧
    (get_context_messages thread15 10).length = min 10 thread15.length :=
  windowed_context_last_min_suffix thread15 10 (by decide)

/-- C10: after every completed single turn — even one whose dispatch
result has its error flag set — the session controller appends exactly
the user message and the assistant message to the thread, the assistant
message carrying the result's content (here the error text) and its
provider; the thread is never left unchanged or rolled back, and the
persisted text re-enters the translated context of a later adapter call
through the default context window. -/
theorem turn_persisted_even_on_error (thread : List Message) (prompt : String)
    (r : Response) (ts1 ts2 nextPrompt : String) (_h : r.error = true) :
    (sessionStep thread prompt r ts1 ts2).length = thread.length + 2 ∧
    (sessionStep thread prompt r ts1 ts2).take thread.length = thread ∧
    (sessionStep thread prompt r ts1 ts2).getLast? =
      some { role := "assistant", content := r.content,
             provider := some r.provider, timestamp := ts2 } ∧
    ("assistant", r.content) ∈
      mistralMessages nextPrompt
        (get_context_messages (sessionStep thread prompt r ts1 ts2) 10) := by
  refine ⟨?_, ?_, ?_, ?_⟩
  · simp [sessionStep, add_message]
  · unfold sessionStep add_message
    rw [List.append_assoc]
    exact List.take_left thread _
  · unfold sessionStep add_message
    rw [List.getLast?_concat]
  · unfold sessionStep add_message mistralMessages
    apply List.mem_append_left
    exact List.mem_map.2
      ⟨_, List.mem_filter.2 ⟨mem_windowed_of_append _ _ 10 (by omega), rfl⟩, rfl⟩

/-- Witness for C10 at an empty thread and a concrete failed result. -/
theorem turn_persisted_even_on_error_witness :
    (sessionStep [] "ping" errResp "t1" "t2").length = ([] : List Message).length + 2 ∧
    (sessionStep [] "ping" errResp "t1" "t2").take ([] : List Message).length = [] ∧
    (sessionStep [] "ping" errResp "t1" "t2").getLast? =
      some { role := "assistant", content := errResp.content,
             provider := some errResp.provider, timestamp := "t2" } ∧
    ("assistant", errResp.content) ∈
      mistralMessages "next"
        (get_context_messages (sessionStep [] "ping" errResp "t1" "t2") 10) :=
  turn_persisted_even_on_error [] "ping" errResp "t1" "t2" "next" rfl

end Brain
